import Mathlib

/-!
Shallow embedding of the RenewDSL parsing core:
`src/parser/parser.py` (grammar, `RenewDSLTransformer`, `IndentPreprocessor`,
`parse`) and `src/parser/ast_nodes.py` (the typed domain model).

Modelling conventions:
* Numeric literals matched by the grammar terminal `NUMBER: /[0-9]+\.?[0-9]*/`
  are finite decimal strings; they are embedded exactly as rationals (`ℚ`).
  Python's `int(x)` truncation toward zero is `pyInt`.
* Python strings are Lean `String`s; where character-level processing is
  required (the indentation preprocessor) they are `List Char`.
* Python's dynamically typed attribute values are the inductive `Value`.
* `dict(pairs)` followed by `.get(key)` is modelled by `dictGet`, which
  returns the value of the LAST pair whose key matches (Python dict
  construction is last-one-wins per key).
-/

/-- `ast_nodes.Coordinate`: signed latitude/longitude in degrees. -/
structure Coordinate where
  latitude : ℚ
  longitude : ℚ
  deriving DecidableEq

/-- `ast_nodes.Quantity`: a magnitude with a verbatim unit tag. -/
structure Quantity where
  value : ℚ
  unit : String
  deriving DecidableEq

/-- `ast_nodes.TrackingMode` (enum `fixed | single_axis | dual_axis`). -/
inductive TrackingMode where
  | fixed
  | single_axis
  | dual_axis
  deriving DecidableEq

/-- `ast_nodes.EquipmentRef`: a name plus an optional integer count. -/
structure EquipmentRef where
  name : String
  count : Option ℤ
  deriving DecidableEq

/-- `ast_nodes.WeatherSource`: provider name plus string arguments. -/
structure WeatherSource where
  provider : String
  args : List String
  deriving DecidableEq

/-- `ast_nodes.Objective`: `maximize`/`minimize` mode plus target name. -/
structure Objective where
  mode : String
  target : String
  deriving DecidableEq

/-- The dynamically typed attribute values produced by the transformer's
rule methods (`RenewDSLTransformer`); one constructor per Python runtime
type that can appear as an attribute value. -/
inductive Value where
  | coord (c : Coordinate)
  | qty (q : Quantity)
  | str (s : String)
  | num (n : ℚ)
  | ref (r : EquipmentRef)
  | track (t : TrackingMode)
  | weather (w : WeatherSource)
  | strList (l : List String)
  | objective (o : Objective)
  deriving DecidableEq

/-- `ast_nodes.Constraint` (fields `variable`, `operator`, `value`;
declared in the type system but never produced by any grammar rule). -/
structure Constraint where
  cvar : String
  cop : String
  cval : Value
  deriving DecidableEq

/-- `dict(pairs).get(k)`: the value of the last pair whose key is `k`,
`none` when no pair matches.  Later entries shadow earlier ones, exactly
as Python dict construction from a pair list. -/
def dictGet : List (String × Value) → String → Option Value
  | [], _ => none
  | p :: rest, k =>
    match dictGet rest k with
    | some v => some v
    | none => if p.1 = k then some p.2 else none

/-- Python `int(q)` for a rational: truncation toward zero
(`Int.tdiv` is T-division, rounding the quotient toward zero). -/
def pyInt (q : ℚ) : ℤ :=
  q.num.tdiv (q.den : ℤ)

/-- A lark parse-tree node as a transformer callback sees an
*untransformed* child: its rule name is the `.data` attribute.  Lark
filters anonymous literal tokens (the grammar's quoted keywords such as
`"N"`, `"fixed"`, `"kW"`) out of the tree, so rules consisting only of
such literals and having no transformer callback — `direction_ns`,
`direction_ew`, `unit`, `orientation` — reach their parent's callback
as a bare tree carrying no trace of the matched letter. -/
structure LarkTree where
  data : String
  deriving DecidableEq

/-- The Python comparison `ns == "N"` performed by
`RenewDSLTransformer.coordinate`: a lark `Tree` compares equal only to
other `Tree`s, so comparing it with a `str` is always `False`. -/
def treeEqStr (_t : LarkTree) (_s : String) : Bool :=
  false

/-- An argument value inside the transformer's bottom-up traversal:
either a value already produced by a child rule's callback, or an
untransformed tree for a child rule that has no callback. -/
inductive PyObj where
  | val (v : Value)
  | tree (t : LarkTree)
  deriving DecidableEq

/-- The Python exceptions the attribute-dispatch methods can raise. -/
inductive PyError where
  | attributeError
  | indexError
  deriving DecidableEq

/-- Python attribute access `x.data`: lark `Tree`s expose `.data` (the
rule name); none of the transformed AST values (`Coordinate`,
`Quantity`, `EquipmentRef`, `TrackingMode`, floats, strings, lists)
defines a `data` attribute, so the access raises `AttributeError` on
every one of them. -/
def getattr_data : PyObj → Except PyError String
  | PyObj.tree t => Except.ok t.data
  | PyObj.val _ => Except.error PyError.attributeError

/-- `RenewDSLTransformer.coordinate` (parser.py lines 118-122) as it
actually runs: `lat`/`lon` are the NUMBER children (transformed to
floats by the `NUMBER` callback), but `ns`/`ew` are the *untransformed*
`direction_ns`/`direction_ew` subtrees — those rules have no callback
and their literal children are filtered — so `ns == "N"` and
`ew == "E"` compare a `Tree` to a `str`, which is always `False`, and
`lat if ns == "N" else -lat` / `lon if ew == "E" else -lon` negate both
magnitudes unconditionally. -/
def coordinate (lat : ℚ) (ns : LarkTree) (lon : ℚ) (ew : LarkTree) : Coordinate :=
  { latitude := if treeEqStr ns "N" then lat else -lat
    longitude := if treeEqStr ew "E" then lon else -lon }

/-- `RenewDSLTransformer.quantity`: `Quantity(value, str(unit))` — pairs
the magnitude with the string Python computes for the unit child.  (In
the program the `unit` rule has no callback, so that string is the repr
of the untransformed `unit` tree, not the unit's source text such as
`"kW"`; no theorem below asserts a particular unit string coming out of
a parse — `Quantity` values appear only as opaque attribute payloads.) -/
def quantity (value : ℚ) (unit : String) : Quantity :=
  { value := value, unit := unit }

/-- `ast_nodes.Site`: the fields beyond `name` hold whatever value the
matching attribute produced (`attrs.get(...)`), or `none` when absent. -/
structure Site where
  name : String
  location : Option Value
  area : Option Value
  terrain : Option Value
  irradiance : Option Value
  elevation : Option Value
  deriving DecidableEq

/-- `RenewDSLTransformer.site_def` (parser.py lines 141-153): collect the
attribute pairs into a dict and read off each field with `.get`. -/
def site_def (name : String) (attrs : List (String × Value)) : Site :=
  { name := name
    location := dictGet attrs "location"
    area := dictGet attrs "area"
    terrain := dictGet attrs "terrain"
    irradiance := dictGet attrs "irradiance"
    elevation := dictGet attrs "elevation" }

/-- `RenewDSLTransformer.site_attr` (parser.py lines 136-139):
`attr_name = items[0].data; value = items[1]`.  After filtering, a
`site_attr` alternative delivers exactly one child — the transformed
attribute value — so `items[0]` is that value, `.data` raises
`AttributeError` on it, and `items[1]` would raise `IndexError` even if
it did not. -/
def site_attr (items : List PyObj) : Except PyError (String × PyObj) :=
  match items with
  | [] => Except.error PyError.indexError
  | x :: rest =>
    match getattr_data x with
    | Except.error e => Except.error e
    | Except.ok nm =>
      match rest with
      | [] => Except.error PyError.indexError
      | y :: _ => Except.ok (nm, y)

/-- `RenewDSLTransformer.layout_attr` (parser.py lines 192-195): the
same `items[0].data; items[1]` shape as `site_attr`, so on the single
transformed child a layout attribute line actually delivers, the method
raises `AttributeError` and `layout_def` is never reached. -/
def layout_attr (items : List PyObj) : Except PyError (String × PyObj) :=
  match items with
  | [] => Except.error PyError.indexError
  | x :: rest =>
    match getattr_data x with
    | Except.error e => Except.error e
    | Except.ok nm =>
      match rest with
      | [] => Except.error PyError.indexError
      | y :: _ => Except.ok (nm, y)

/-- `ast_nodes.Equipment`: the `specs` dict is modelled by its pair list
(in insertion order), observed through `dictGet`. -/
structure Equipment where
  eqType : String
  name : String
  from_catalog : Bool
  specs : List (String × Value)
  deriving DecidableEq

/-- `RenewDSLTransformer.equipment_item` together with `spec_block`
(parser.py lines 159-178): `spec_block` builds `dict(items)` from the
spec lines; the dict is represented by the pair list itself, with
last-one-wins lookup provided by `dictGet`. -/
def equipment_item (eq_type : String) (name : String)
    (specs : List (String × Value)) : Equipment :=
  { eqType := eq_type, name := name, from_catalog := false, specs := specs }

/-- `RenewDSLTransformer.equipment_ref` (parser.py lines 183-185):
`EquipmentRef(name, int(count) if count else None)` — a missing *or zero*
multiplier both yield `None`, a nonzero multiplier is truncated to int. -/
def equipment_ref (name : String) (count : Option ℚ) : EquipmentRef :=
  { name := name
    count :=
      match count with
      | none => none
      | some q => if q = 0 then none else some (pyInt q) }

/-- `ast_nodes.Layout`: each optional field holds the matching attribute's
value; `turbines` and `lcount` are never passed by `layout_def`. -/
structure Layout where
  name : String
  panels : Option Value
  inverters : Option Value
  turbines : Option Value
  orientation : Option Value
  tilt : Option Value
  row_spacing : Option Value
  tracking : Option Value
  lcount : Option ℤ
  deriving DecidableEq

/-- `RenewDSLTransformer.layout_def` (parser.py lines 197-211). -/
def layout_def (name : String) (attrs : List (String × Value)) : Layout :=
  { name := name
    panels := dictGet attrs "panels"
    inverters := dictGet attrs "inverters"
    turbines := none
    orientation := dictGet attrs "orientation"
    tilt := dictGet attrs "tilt"
    row_spacing := dictGet attrs "row_spacing"
    tracking := dictGet attrs "tracking"
    lcount := none }

/-- `ast_nodes.Simulation` after `__post_init__`: `outputs` is never
`None` (a missing attribute was replaced by the default list). -/
structure Simulation where
  weather : Option Value
  duration : Option Value
  timestep : Option Value
  outputs : Value
  deriving DecidableEq

/-- `RenewDSLTransformer.simulate_def` (parser.py lines 226-235) composed
with `Simulation.__post_init__` (ast_nodes.py lines 119-121): a `None`
`outputs` becomes `["generation", "capacity_factor"]`. -/
def simulate_def (attrs : List (String × Value)) : Simulation :=
  { weather := dictGet attrs "weather"
    duration := dictGet attrs "duration"
    timestep := dictGet attrs "timestep"
    outputs := (dictGet attrs "outputs").getD (Value.strList ["generation", "capacity_factor"]) }

/-- `ast_nodes.Optimization` after `__post_init__`: `variables` and
`constraints` are never `None` (replaced by `[]`). -/
structure Optimization where
  objective : Option Value
  vars : Value
  constraints : List Constraint
  algorithm : Value
  deriving DecidableEq

/-- `RenewDSLTransformer.optimize_def` (parser.py lines 249-257) composed
with `Optimization.__post_init__` (ast_nodes.py lines 153-157): the
constructor call passes no `constraints` argument, so the field defaults
to `None` and `__post_init__` replaces it with the empty list;
`algorithm` uses `attrs.get('algorithm', 'gradient')`. -/
def optimize_def (attrs : List (String × Value)) : Optimization :=
  { objective := dictGet attrs "objective"
    vars := (dictGet attrs "variables").getD (Value.strList [])
    constraints := (none : Option (List Constraint)).getD []
    algorithm := (dictGet attrs "algorithm").getD (Value.str "gradient") }

/-- `ast_nodes.Model`: the aggregate root, fresh per parse call. -/
structure Model where
  site : Option Site
  equipment : List Equipment
  layouts : List Layout
  simulation : Option Simulation
  optimization : Option Optimization
  deriving DecidableEq

/-- `Model()` as built by `RenewDSLTransformer.__init__` plus
`Model.__post_init__`: empty slots everywhere. -/
def emptyModel : Model :=
  { site := none, equipment := [], layouts := [], simulation := none, optimization := none }

/-- The whitespace characters removed by Python's `str.strip` /
`str.lstrip` on the (ASCII) inputs of interest. -/
def pyIsSpaceChar (c : Char) : Bool :=
  c = ' ' || c = '\t' || c = '\r' || c = '\x0b' || c = '\x0c'

/-- Python `line.lstrip()`. -/
def pyLstrip (s : List Char) : List Char :=
  s.dropWhile pyIsSpaceChar

/-- Python `line.strip()`. -/
def pyStrip (s : List Char) : List Char :=
  ((s.dropWhile pyIsSpaceChar).reverse.dropWhile pyIsSpaceChar).reverse

/-- `len(line) - len(line.lstrip())` (parser.py line 281). -/
def leadingWS (s : List Char) : Nat :=
  s.length - (pyLstrip s).length

/-- Python `s.replace(pat, repl, 1)`: replace the first occurrence of
`pat` (scanning left to right), leave the rest of the string intact. -/
def replaceFirst (pat repl : List Char) : List Char → List Char
  | [] => if pat.isPrefixOf ([] : List Char) then repl else []
  | c :: rest =>
    if pat.isPrefixOf (c :: rest) then repl ++ (c :: rest).drop pat.length
    else c :: replaceFirst pat repl rest

/-- The literal `'<INDENT>'` pseudo-token. -/
def indentMarker : List Char := "<INDENT>".data

/-- The literal `'<DEDENT>'` pseudo-token. -/
def dedentMarker : List Char := "<DEDENT>".data

/-- Python `'<INDENT>' * n`. -/
def indentMarkers : Nat → List Char
  | 0 => []
  | n + 1 => indentMarker ++ indentMarkers n

/-- The dedent loop of `IndentPreprocessor.process` (parser.py lines
288-290).  The stack is stored top-first here (Python keeps it
bottom-first and reads/pops at `[-1]`): while the stack is nonempty and
`indent` is below its top, pop and emit one `<DEDENT>` output line.
Returns the emitted lines and the remaining stack. -/
def popLoop (indent : Nat) : List Nat → List (List Char) × List Nat
  | [] => ([], [])
  | top :: rest =>
    if indent < top then
      let r := popLoop indent rest
      (dedentMarker :: r.1, r.2)
    else ([], top :: rest)

/-- The per-line loop of `IndentPreprocessor.process` (parser.py lines
275-293), run on the remaining input lines with the current indent
stack (top-first; the base entry `0` is never popped because widths are
nonnegative).  Returns the emitted output lines and the final stack.
* A line whose `strip()` is empty is emitted as `''`.
* If the leading-whitespace width exceeds the stack top, the width is
  pushed and the line's leading spaces are replaced (first occurrence)
  by `'<INDENT>' * (len(stack) - 1)` markers — the count taken *after*
  the push, exactly as in the source.
* If the width is below the top, the dedent loop `popLoop` runs and the
  line follows the emitted `<DEDENT>` lines unchanged.
* Otherwise the line is emitted unchanged. -/
def processLines (stack : List Nat) : List (List Char) → List (List Char) × List Nat
  | [] => ([], stack)
  | line :: rest =>
    if pyStrip line = [] then
      let r := processLines stack rest
      ([] :: r.1, r.2)
    else
      let indent := leadingWS line
      if stack.headD 0 < indent then
        let stack' := indent :: stack
        let r := processLines stack' rest
        (replaceFirst (List.replicate indent ' ') (indentMarkers (stack'.length - 1)) line :: r.1,
          r.2)
      else if indent < stack.headD 0 then
        let p := popLoop indent stack
        let r := processLines p.2 rest
        (p.1 ++ line :: r.1, r.2)
      else
        let r := processLines stack rest
        (line :: r.1, r.2)

/-- The closing loop of `IndentPreprocessor.process` (parser.py lines
296-298): one `<DEDENT>` line per stack level still open above the base. -/
def closeBlocks : List Nat → List (List Char)
  | [] => []
  | [_] => []
  | _ :: rest => dedentMarker :: closeBlocks rest

/-- Python `text.split('\n')`. -/
def splitNL : List Char → List (List Char)
  | [] => [[]]
  | c :: rest =>
    if c = '\n' then [] :: splitNL rest
    else
      match splitNL rest with
      | [] => [[c]]
      | l :: ls => (c :: l) :: ls

/-- Python `'\n'.join(lines)`. -/
def joinNL : List (List Char) → List Char
  | [] => []
  | [l] => l
  | l :: rest => l ++ '\n' :: joinNL rest

/-- `IndentPreprocessor(text).process()` (parser.py lines 266-300):
split on newlines, run the per-line loop from stack `[0]`, close the
remaining open levels, join with newlines. -/
def process (text : List Char) : List Char :=
  let r := processLines [0] (splitNL text)
  joinNL (r.1 ++ closeBlocks r.2)

/-- The parse-failure outcome: the SyntaxError raised by the LALR parse
step, carrying the offending token text. -/
inductive ParseError where
  | synError (tok : String)
  deriving DecidableEq

/-- The closed set of attribute keywords admitted by the grammar
production `layout_attr` (parser.py GRAMMAR lines 44-49). -/
def layoutAttrKeywords : List String :=
  ["panels", "inverters", "orientation", "tilt", "row_spacing", "tracking"]

/-- Recognition of a single layout attribute line against the grammar's
`layout_attr` production (transcribed from GRAMMAR lines 44-49): a line
whose leading keyword is outside the fixed alternative set matches no
production, so the parse step raises a SyntaxError; a recognized line
contributes its `(keyword, value)` pair.  Only the keyword dimension of
the production is modelled (the value shape is also grammar-checked in
the source), which is sound for the failure direction used below. -/
def parseLayoutAttrLine (line : String × Value) : Except ParseError (String × Value) :=
  if line.1 ∈ layoutAttrKeywords then Except.ok line
  else Except.error (ParseError.synError line.1)

/-- Recognition of all attribute lines of one layout block, in order;
the first unrecognized line aborts with its SyntaxError. -/
def parseLayoutAttrs : List (String × Value) → Except ParseError (List (String × Value))
  | [] => Except.ok []
  | line :: rest => do
    let a ← parseLayoutAttrLine line
    let as ← parseLayoutAttrs rest
    Except.ok (a :: as)

/-- One top-level statement of the grammar (`statement` production,
GRAMMAR lines 14-18), at block granularity: names plus attribute lines.
An equipment item is `(type, name, spec lines)`. -/
inductive Statement where
  | siteS (name : String) (attrs : List (String × Value))
  | equipmentS (items : List (String × String × List (String × Value)))
  | layoutS (name : String) (lines : List (String × Value))
  | simulateS (attrs : List (String × Value))
  | optimizeS (attrs : List (String × Value))
  deriving DecidableEq

/-- The transformer's effect of one statement on the model under
construction: `site_def` stores the site (last site wins),
`equipment_item` appends each item, `layout_def` appends the layout,
`simulate_def` / `optimize_def` store their records; a layout block's
attribute lines are first checked against the `layout_attr` production.
The success path hands the block reducers idealized `(keyword, value)`
pairs, which the source's attribute dispatch (`items[0].data` in
`site_attr`, `layout_attr`, `simulate_attr`, `optimize_attr`) cannot in
fact produce — it raises on every attribute line, see `site_attr` and
`layout_attr` above — so theorems below use this fold only in the
failure direction or conditionally on a successful outcome, never to
assert that the program parses a given document. -/
def applyStatement (m : Model) : Statement → Except ParseError Model
  | Statement.siteS name attrs =>
    Except.ok { m with site := some (site_def name attrs) }
  | Statement.equipmentS items =>
    Except.ok { m with equipment :=
      m.equipment ++ items.map (fun i => equipment_item i.1 i.2.1 i.2.2) }
  | Statement.layoutS name lines => do
    let attrs ← parseLayoutAttrs lines
    Except.ok { m with layouts := m.layouts ++ [layout_def name attrs] }
  | Statement.simulateS attrs =>
    Except.ok { m with simulation := some (simulate_def attrs) }
  | Statement.optimizeS attrs =>
    Except.ok { m with optimization := some (optimize_def attrs) }

/-- `parse` (parser.py lines 303-318) at the block level: fold the
document's statements over a fresh empty model.  A SyntaxError aborts
the whole run — the Python exception propagates out of `parse`, so a
failing document yields no Model at all (`Except.error` carries none).
The preprocessor stage and the dispatch failures noted on
`applyStatement` are not replayed on the success path, so `Except.ok`
here overapproximates the program's successes: theorems rely on it only
for failure propagation and for invariants conditional on success. -/
def parseDoc (doc : List Statement) : Except ParseError Model :=
  doc.foldlM applyStatement emptyModel

/-! ### Helper lemmas about `dictGet` (the model of Python dict
construction and lookup) -/

theorem dictGet_eq_none_iff (l : List (String × Value)) (k : String) :
    dictGet l k = none ↔ k ∉ l.map Prod.fst := by
  induction l with
  | nil => simp [dictGet]
  | cons p rest ih =>
    cases h : dictGet rest k with
    | some v =>
      have hk : k ∈ rest.map Prod.fst := by
        by_contra hk
        simp [ih.mpr hk] at h
      simp [dictGet, h, hk]
    | none =>
      have hk := ih.mp h
      by_cases hp : p.1 = k
      · simp [dictGet, h, hk, hp]
      · simp [dictGet, h, hk, hp]
        exact fun hkp => hp hkp.symm

theorem dictGet_mem {l : List (String × Value)} {k : String} {v : Value}
    (h : dictGet l k = some v) : (k, v) ∈ l := by
  induction l with
  | nil => simp [dictGet] at h
  | cons p rest ih =>
    rw [dictGet] at h
    cases hr : dictGet rest k with
    | some w =>
      rw [hr] at h
      cases h
      exact List.mem_cons_of_mem _ (ih hr)
    | none =>
      rw [hr] at h
      by_cases hp : p.1 = k
      · rw [if_pos hp] at h
        cases h
        subst hp
        simp
      · rw [if_neg hp] at h
        cases h

theorem dictGet_of_mem {l : List (String × Value)} {k : String} {v : Value}
    (nd : (l.map Prod.fst).Nodup) (hm : (k, v) ∈ l) : dictGet l k = some v := by
  induction l with
  | nil => cases hm
  | cons p rest ih =>
    have nd0 : (p.1 :: rest.map Prod.fst).Nodup := by
      rw [List.map_cons] at nd
      exact nd
    have nd' := List.nodup_cons.mp nd0
    rcases List.mem_cons.mp hm with he | hm'
    · have hk : k ∉ rest.map Prod.fst := by
        rw [← he] at nd'
        exact nd'.1
      rw [dictGet, (dictGet_eq_none_iff rest k).mpr hk, ← he]
      simp
    · rw [dictGet, ih nd'.2 hm']

theorem dictGet_perm (l l' : List (String × Value))
    (nd : (l.map Prod.fst).Nodup) (h : l.Perm l') (k : String) :
    dictGet l k = dictGet l' k := by
  have nd' : (l'.map Prod.fst).Nodup := ((h.map Prod.fst).nodup_iff).mp nd
  cases hc : dictGet l k with
  | none =>
    have hk := (dictGet_eq_none_iff l k).mp hc
    have hk' : k ∉ l'.map Prod.fst := fun hmem => hk (((h.map Prod.fst).mem_iff).mpr hmem)
    exact ((dictGet_eq_none_iff l' k).mpr hk').symm
  | some v =>
    exact (dictGet_of_mem nd' (h.mem_iff.mp (dictGet_mem hc))).symm

/-- Last-one-wins, in general form: the binding whose occurrence is the
last one for its key is the one `dictGet` returns, whatever came before. -/
theorem dictGet_last (l₁ l₂ : List (String × Value)) (k : String) (v : Value)
    (h : k ∉ l₂.map Prod.fst) : dictGet (l₁ ++ (k, v) :: l₂) k = some v := by
  induction l₁ with
  | nil =>
    rw [List.nil_append, dictGet, (dictGet_eq_none_iff l₂ k).mpr h]
    simp
  | cons p rest ih =>
    rw [List.cons_append, dictGet, ih]

/-! ### Helper lemmas about error propagation in `parseDoc` -/

theorem parseLayoutAttrs_error {lines : List (String × Value)} {kw : String} {v : Value}
    (hmem : (kw, v) ∈ lines) (hk : kw ∉ layoutAttrKeywords) :
    ∃ e, parseLayoutAttrs lines = Except.error e := by
  induction lines with
  | nil => cases hmem
  | cons p rest ih =>
    rcases List.mem_cons.mp hmem with he | hm'
    · refine ⟨ParseError.synError kw, ?_⟩
      have hline : parseLayoutAttrLine p = Except.error (ParseError.synError kw) := by
        rw [← he]
        simp [parseLayoutAttrLine, hk]
      rw [parseLayoutAttrs, hline]
      rfl
    · cases hl : parseLayoutAttrLine p with
      | error e => exact ⟨e, by rw [parseLayoutAttrs, hl]; rfl⟩
      | ok a =>
        obtain ⟨e, he⟩ := ih hm'
        exact ⟨e, by rw [parseLayoutAttrs, hl, he]; rfl⟩

theorem parseDocFrom_error {nm : String} {lines : List (String × Value)}
    {kw : String} {v : Value} (doc : List Statement)
    (hdoc : Statement.layoutS nm lines ∈ doc) (hmem : (kw, v) ∈ lines)
    (hk : kw ∉ layoutAttrKeywords) :
    ∀ init : Model, ∃ e, doc.foldlM applyStatement init = Except.error e := by
  induction doc with
  | nil => cases hdoc
  | cons s rest ih =>
    intro init
    rcases List.mem_cons.mp hdoc with he | hd
    · obtain ⟨e, hE⟩ := parseLayoutAttrs_error hmem hk
      refine ⟨e, ?_⟩
      rw [← he, List.foldlM_cons, applyStatement, hE]
      rfl
    · cases hs : applyStatement init s with
      | error e => exact ⟨e, by rw [List.foldlM_cons, hs]; rfl⟩
      | ok m' =>
        obtain ⟨e, hE⟩ := ih hd m'
        exact ⟨e, by rw [List.foldlM_cons, hs]; exact hE⟩

/-- Invariant carried through the statement fold: any `Optimization`
stored on the model under construction has empty `constraints` — the
only code that ever writes the optimization slot is `optimize_def`,
which never populates them. -/
theorem parseDocFrom_constraints (doc : List Statement) :
    ∀ init md, (∀ o, init.optimization = some o → o.constraints = []) →
      doc.foldlM applyStatement init = Except.ok md →
      ∀ o, md.optimization = some o → o.constraints = [] := by
  induction doc with
  | nil =>
    intro init md h he
    have h2 : (Except.ok init : Except ParseError Model) = Except.ok md := he
    cases h2
    exact h
  | cons s rest ih =>
    intro init md h he
    rw [List.foldlM_cons] at he
    cases hs : applyStatement init s with
    | error e =>
      rw [hs] at he
      have hcontra : (Except.error e : Except ParseError Model) = Except.ok md := he
      cases hcontra
    | ok m' =>
      rw [hs] at he
      refine ih m' md ?_ he
      cases s with
      | siteS name attrs =>
        have hm := Except.ok.inj hs
        rw [← hm]
        exact h
      | equipmentS items =>
        have hm := Except.ok.inj hs
        rw [← hm]
        exact h
      | layoutS name lines =>
        rw [applyStatement] at hs
        cases hp : parseLayoutAttrs lines with
        | error e =>
          rw [hp] at hs
          have hcontra : (Except.error e : Except ParseError Model) = Except.ok m' := hs
          cases hcontra
        | ok attrs =>
          rw [hp] at hs
          have hm := Except.ok.inj hs
          rw [← hm]
          exact h
      | simulateS attrs =>
        have hm := Except.ok.inj hs
        rw [← hm]
        exact h
      | optimizeS attrs =>
        have hm := Except.ok.inj hs
        rw [← hm]
        intro o ho
        cases Option.some.inj ho
        rfl

/-! ### The claims -/

/-- **C1** (code-bug evidence): the hemisphere letter cannot determine
the sign — `coordinate` receives the untransformed direction trees, the
`Tree == str` comparison is always `False`, and *both* magnitudes are
negated unconditionally, so the `10°N, 20°E` of Scenario A would be
stored as `(-10, -20)`, not `(10, 20)`; independently, `site_attr`
raises `AttributeError` on the single transformed child of every site
attribute line, so the Scenario A document aborts in the transformer
and no Model is ever built. -/
theorem C1_coordinate_always_negated :
    (∀ (lat lon : ℚ) (ns ew : LarkTree), coordinate lat ns lon ew = ⟨-lat, -lon⟩) ∧
    coordinate 10 ⟨"direction_ns"⟩ 20 ⟨"direction_ew"⟩ = ⟨-10, -20⟩ ∧
    coordinate 10 ⟨"direction_ns"⟩ 20 ⟨"direction_ew"⟩ ≠ ⟨10, 20⟩ ∧
    (∀ v : Value, site_attr [PyObj.val v] = Except.error PyError.attributeError) := by
  exact ⟨fun lat lon ns ew => rfl, by decide, by decide, fun v => rfl⟩

/-- **C2** (code-bug evidence): the claim (and spec §4.1) says an
indent-increasing line is prefixed with exactly one block-start marker;
the source instead prefixes `'<INDENT>' * (len(indent_stack) - 1)`
markers (parser.py line 286).  On the input `"a\n b\n  c"` the depth-2
line comes out carrying two adjacent `<INDENT>` markers, while each pop
still emits exactly one `<DEDENT>` (three block-starts versus two
block-ends on this input), so the marker stream cannot balance for any
nesting deeper than one level. -/
theorem C2_indent_markers_multiplied :
    process "a\n b\n  c".data
      = "a\n<INDENT>b\n<INDENT><INDENT>c\n<DEDENT>\n<DEDENT>".data := by
  decide

/-- **C3** (code-bug evidence): the last-one-wins merge policy itself
is implemented — `dict(items)` keeps the last binding of a duplicated
key, first conjunct — but the Scenario B document never reaches it: its
`capacity:` lines sit at nesting depth 2, where the preprocessor emits
two adjacent `<INDENT>` markers before the first of them (three
block-start markers versus two block-end markers in the whole output,
second conjunct), while the grammar's `spec_block` production admits
exactly one `_INDENT`; the LALR parse therefore rejects Scenario B and
no Model with a `capacity` spec ever exists. -/
theorem C3_scenarioB_preprocessing :
    (∀ (k : String) (v₁ v₂ : Value), dictGet [(k, v₁), (k, v₂)] k = some v₂) ∧
    process "equipment:\n    panel \"P1\":\n        capacity: 400kW\n        capacity: 500kW".data
      = "equipment:\n<INDENT>panel \"P1\":\n<INDENT><INDENT>capacity: 400kW\n        capacity: 500kW\n<DEDENT>\n<DEDENT>".data := by
  constructor
  · intro k v₁ v₂
    simp [dictGet]
  · decide

/-- **C4**: a `layout` block containing an attribute line whose keyword
is outside the grammar's fixed `layout_attr` alternative set makes the
whole parse fail with a SyntaxError — the line is not silently ignored
— and the failing run returns no Model to the caller at all: the result
is an `Except.error`, which carries no partial model. -/
theorem C4_unknown_layout_attr_fails (doc : List Statement) (nm : String)
    (lines : List (String × Value)) (kw : String) (v : Value)
    (hdoc : Statement.layoutS nm lines ∈ doc) (hmem : (kw, v) ∈ lines)
    (hk : kw ∉ layoutAttrKeywords) :
    ∃ e, parseDoc doc = Except.error e :=
  parseDocFrom_error doc hdoc hmem hk emptyModel

theorem C4_witness :
    (Statement.layoutS "L1" [("foo", Value.num 1)]
        ∈ [Statement.layoutS "L1" [("foo", Value.num 1)]]) ∧
    ((("foo" : String), Value.num 1) ∈ [(("foo" : String), Value.num 1)]) ∧
    (("foo" : String) ∉ layoutAttrKeywords) ∧
    (∃ e, parseDoc [Statement.layoutS "L1" [("foo", Value.num 1)]] = Except.error e) :=
  ⟨by decide, by decide, by decide,
    C4_unknown_layout_attr_fails [Statement.layoutS "L1" [("foo", Value.num 1)]] "L1"
      [("foo", Value.num 1)] "foo" (Value.num 1)
      (by decide) (by decide) (by decide)⟩

/-- **C5**: order independence — permuting a block's attribute lines,
when no attribute name is duplicated, leaves every dict observation and
every constructed record unchanged (site, layout, simulate and optimize
blocks; equipment spec dicts are covered by the pointwise `dictGet`
clause, which is the full observable behavior of the specs dict). -/
theorem C5_order_independence (name : String) (l l' : List (String × Value))
    (nd : (l.map Prod.fst).Nodup) (h : l.Perm l') :
    (∀ k, dictGet l k = dictGet l' k) ∧
    site_def name l = site_def name l' ∧
    layout_def name l = layout_def name l' ∧
    simulate_def l = simulate_def l' ∧
    optimize_def l = optimize_def l' := by
  have hd : ∀ k, dictGet l k = dictGet l' k := dictGet_perm l l' nd h
  refine ⟨hd, ?_, ?_, ?_, ?_⟩ <;>
    simp [site_def, layout_def, simulate_def, optimize_def, hd]

theorem C5_witness :
    ((([("location", Value.coord ⟨1, 2⟩), ("area", Value.qty (quantity 50 "hectares"))]
        : List (String × Value)).map Prod.fst).Nodup) ∧
    (([("location", Value.coord ⟨1, 2⟩), ("area", Value.qty (quantity 50 "hectares"))]
        : List (String × Value)).Perm
      [("area", Value.qty (quantity 50 "hectares")), ("location", Value.coord ⟨1, 2⟩)]) ∧
    site_def "S" [("location", Value.coord ⟨1, 2⟩), ("area", Value.qty (quantity 50 "hectares"))]
      = site_def "S" [("area", Value.qty (quantity 50 "hectares")), ("location", Value.coord ⟨1, 2⟩)] :=
  ⟨by decide, by decide, (C5_order_independence "S" _ _ (by decide) (by decide)).2.1⟩

/-- **C6**: a `simulate` block omitting the `outputs` attribute yields
outputs `["generation", "capacity_factor"]`, in that order (default
installed by `Simulation.__post_init__`). -/
theorem C6_outputs_default (attrs : List (String × Value))
    (h : "outputs" ∉ attrs.map Prod.fst) :
    (simulate_def attrs).outputs = Value.strList ["generation", "capacity_factor"] := by
  simp [simulate_def, (dictGet_eq_none_iff attrs "outputs").mpr h]

theorem C6_witness :
    (("outputs" : String) ∉ ([("duration", Value.str "1year")]
        : List (String × Value)).map Prod.fst) ∧
    (simulate_def [("duration", Value.str "1year")]).outputs
      = Value.strList ["generation", "capacity_factor"] :=
  ⟨by decide, C6_outputs_default _ (by decide)⟩

/-- **C7** (code-bug evidence): the `equipment_ref` rule itself does
build `EquipmentRef("P1", 200)` — its NAME and NUMBER children have
callbacks, and the float multiplier is truncated with `int()` at the
point of use (first two conjuncts) — but the enclosing `layout_attr`
dispatch then executes `items[0].data` on that transformed value,
raising `AttributeError` (third conjunct), so `layout_def` never runs
and `layouts[0]` never exists for the Scenario C document. -/
theorem C7_multiplier_no_layout :
    equipment_ref "P1" (some 200) = ⟨"P1", some 200⟩ ∧
    pyInt 200 = 200 ∧
    (∀ v : Value, layout_attr [PyObj.val v] = Except.error PyError.attributeError) := by
  exact ⟨by decide, by decide, fun v => rfl⟩

/-- **C8** counterexample: a whitespace-only (but nonempty) line is
*not* passed through unchanged — `IndentPreprocessor.process` appends
`''` for it (parser.py line 277), dropping the line's own characters.
For the single-line input `' '` the emitted line is `''`, not `' '`. -/
theorem C8_counterexample :
    processLines [0] [" ".data] = ([[]], [0]) ∧
    [([] : List Char)] ≠ [" ".data] ∧
    process " ".data = "".data ∧ "".data ≠ " ".data := by
  exact ⟨by decide, by decide, by decide, by decide⟩

/-- **C8** (amended): a blank or whitespace-only input line is emitted
as an *empty* line — preserving line-count alignment but not the line's
own characters — and it leaves the indentation stack untouched; a fully
empty line is therefore passed through unchanged. -/
theorem C8_blank_line_amended (stack : List Nat) (line : List Char)
    (rest : List (List Char)) (h : pyStrip line = []) :
    processLines stack (line :: rest)
      = (([] : List Char) :: (processLines stack rest).1, (processLines stack rest).2) := by
  simp [processLines, h]

theorem C8_blank_line_amended_witness :
    pyStrip " ".data = [] ∧
    processLines [0] (" ".data :: ["a".data])
      = (([] : List Char) :: (processLines [0] ["a".data]).1, (processLines [0] ["a".data]).2) :=
  ⟨by decide, C8_blank_line_amended [0] " ".data ["a".data] (by decide)⟩

/-- **C9**: `constraints` is a declared-but-unreachable feature:
`optimize_def` always yields empty constraints, and every model
produced by a successful parse has empty constraints on whatever
optimization record it carries. -/
theorem C9_constraints_empty :
    (∀ attrs, (optimize_def attrs).constraints = []) ∧
    (∀ (doc : List Statement) (md : Model), parseDoc doc = Except.ok md →
      ∀ o, md.optimization = some o → o.constraints = []) := by
  refine ⟨fun attrs => rfl, fun doc md hp o ho => ?_⟩
  exact parseDocFrom_constraints doc emptyModel md (fun o h => by cases h) hp o ho

theorem C9_witness :
    parseDoc [Statement.optimizeS [("algorithm", Value.str "genetic")]]
      = Except.ok ({ emptyModel with
          optimization := some (optimize_def [("algorithm", Value.str "genetic")]) } : Model) ∧
    (optimize_def [("algorithm", Value.str "genetic")]).constraints = [] :=
  ⟨rfl, C9_constraints_empty.2 [Statement.optimizeS [("algorithm", Value.str "genetic")]]
    ({ emptyModel with optimization := some (optimize_def [("algorithm", Value.str "genetic")]) } : Model)
    rfl (optimize_def [("algorithm", Value.str "genetic")]) rfl⟩

/-- **C10**: an explicit zero multiplier is indistinguishable from an
absent one: `EquipmentRef(name, int(count) if count else None)` maps
the falsy `0.0` to `None` exactly as it maps `None`, while every
nonzero multiplier `m` yields the integer `int(m)`. -/
theorem C10_zero_multiplier :
    equipment_ref "P1" (some 0) = ⟨"P1", none⟩ ∧
    (∀ name : String, equipment_ref name none = ⟨name, none⟩) ∧
    (∀ (name : String) (m : ℚ), m ≠ 0 →
      (equipment_ref name (some m)).count = some (pyInt m)) := by
  refine ⟨by decide, fun name => rfl, fun name m hm => ?_⟩
  simp [equipment_ref, hm]

theorem C10_witness :
    ((200 : ℚ) ≠ 0) ∧ (equipment_ref "P1" (some 200)).count = some (pyInt 200) :=
  ⟨by norm_num, C10_zero_multiplier.2.2 "P1" 200 (by norm_num)⟩
